import Mathlib

/-!
Verification of the satellite reputation engine
(`satellitedb/reputations.go`, embedded in the repository as part of
`multinode/multinodedb/dbx/multinodedb.dbx.go`).

Shallow embedding conventions:
* Go `float64` values are modelled as `ℚ`.  Division is Lean's total
  division on `ℚ`, so `x / 0 = 0`; the Go code performs the same division
  on floats, where a zero denominator yields `NaN`/`±Inf` instead.  The
  theorems below never rely on the value of a division whose denominator
  is zero — where a zero denominator occurs it is stated explicitly.
* Go `time.Time` and `time.Duration` are both modelled as `ℚ`
  (an absolute instant, respectively a length of time, on one axis);
  `t.Add(d)` is `t + d`, `now.After(t)` is `now > t`.
  `time.Since(t)` reads the wall clock, which is passed explicitly as the
  `wallNow` argument (the `now` argument of `Update` is the caller's
  timestamp, exactly as in the source).
* `*time.Time` columns are `Option ℚ`; the audit-history blob is opaque
  and modelled as `List Nat`.
* The database row update (`dbx.Reputation_Update_Fields` applied by
  `Update_Reputation_By_Id`) is a per-column option: `none` leaves the
  column untouched, `some v` overwrites it; for a nullable column the
  written value is itself an `Option`.
-/

namespace StorjReputation

/-- The four audit outcomes of `reputation.AuditSuccess/Failure/Unknown/Offline`. -/
inductive AuditOutcome
  | success
  | failure
  | unknown
  | offline
deriving DecidableEq, Repr

/-- One row of the `reputations` table (`dbx.Reputation`), restricted to the
columns read or written by the operations verified here. -/
structure Reputation where
  auditSuccessCount : Int := 0
  totalAuditCount : Int := 0
  vettedAt : Option ℚ := none
  contained : Bool := false
  disqualified : Option ℚ := none
  unknownAuditSuspended : Option ℚ := none
  offlineSuspended : Option ℚ := none
  underReview : Option ℚ := none
  onlineScore : ℚ := 0
  auditHistory : List Nat := []
  auditReputationAlpha : ℚ := 0
  auditReputationBeta : ℚ := 0
  unknownAuditReputationAlpha : ℚ := 0
  unknownAuditReputationBeta : ℚ := 0
deriving DecidableEq, Repr

/-- Modelled from the spec: the `reputations` table schema (the column
defaults used by the lazy `INSERT INTO reputations (id, audit_history)`)
is not part of the sources; the spec states that lazy creation yields a
zero-value record (zero alphas/betas, empty audit history, no timestamps
set). -/
def zeroReputation : Reputation := {}

/-- Modelled from the spec: `overlay.ReputationStatus` is not part of the
sources; the spec defines the status projection as the tuple
(contained, disqualified, unknownAuditSuspended, offlineSuspended,
vettedAt). -/
structure ReputationStatus where
  contained : Bool := false
  disqualified : Option ℚ := none
  unknownAuditSuspended : Option ℚ := none
  offlineSuspended : Option ℚ := none
  vettedAt : Option ℚ := none
deriving DecidableEq, Repr

/-- Modelled from the spec: `overlay.ReputationStatus.Equal` is not part of
the sources; the spec defines `changed = (newStatus ≠ oldStatus)` on the
projected tuple, i.e. `Equal` is field-wise equality. -/
def ReputationStatus.Equal (status value : ReputationStatus) : Bool :=
  decide (status = value)

/-- The offline-suspension configuration carried inside
`reputation.UpdateRequest.AuditHistory`, restricted to the fields the
engine reads. -/
structure AuditHistoryConfig where
  gracePeriod : ℚ := 0
  trackingPeriod : ℚ := 0
  offlineThreshold : ℚ := 0
  offlineDQEnabled : Bool := false
  offlineSuspensionEnabled : Bool := false
deriving DecidableEq, Repr

/-- `reputation.UpdateRequest`, restricted to the fields the engine reads
(the node id only feeds logging and is omitted). -/
structure UpdateRequest where
  auditOutcome : AuditOutcome
  auditLambda : ℚ := 1
  auditWeight : ℚ := 1
  auditDQ : ℚ := 0
  suspensionGracePeriod : ℚ := 0
  suspensionDQEnabled : Bool := false
  auditsRequiredForVetting : Int := 0
  auditHistory : AuditHistoryConfig := {}
deriving DecidableEq, Repr

/-- The result of `reputations.updateAuditHistoryWithTx`
(`reputation.UpdateAuditHistoryResponse`): the new smoothed online score,
whether a full tracking window has elapsed, and the updated history blob.
The tracker is an external collaborator, so the response is taken as an
input here. -/
structure UpdateAuditHistoryResponse where
  newScore : ℚ := 0
  trackingPeriodFull : Bool := false
  history : List Nat := []
deriving DecidableEq, Repr

/-- Go's `int64Field` (sparse optional int64). -/
structure int64Field where
  set : Bool := false
  value : Int := 0
deriving DecidableEq, Repr

/-- Go's `float64Field` (sparse optional float64). -/
structure float64Field where
  set : Bool := false
  value : ℚ := 0
deriving DecidableEq, Repr

/-- Go's `boolField` (sparse optional bool). -/
structure boolField where
  set : Bool := false
  value : Bool := false
deriving DecidableEq, Repr

/-- Go's `timeField` (sparse optional nullable timestamp). -/
structure timeField where
  set : Bool := false
  isNil : Bool := false
  value : ℚ := 0
deriving DecidableEq, Repr

/-- Go's `updateNodeStats` (the node id, used only for logging, is
omitted). -/
structure updateNodeStats where
  vettedAt : timeField := {}
  totalAuditCount : int64Field := {}
  auditReputationAlpha : float64Field := {}
  auditReputationBeta : float64Field := {}
  disqualified : timeField := {}
  unknownAuditReputationAlpha : float64Field := {}
  unknownAuditReputationBeta : float64Field := {}
  unknownAuditSuspended : timeField := {}
  lastContactSuccess : timeField := {}
  lastContactFailure : timeField := {}
  auditSuccessCount : int64Field := {}
  contained : boolField := {}
  offlineUnderReview : timeField := {}
  offlineSuspended : timeField := {}
  onlineScore : float64Field := {}
deriving DecidableEq, Repr

/-- `dbx.Reputation_Update_Fields`: the sparse column update applied by
`Update_Reputation_By_Id`.  Outer `none` = column untouched; for nullable
columns the written value is itself an `Option`. -/
structure ReputationUpdateFields where
  vettedAt : Option (Option ℚ) := none
  totalAuditCount : Option Int := none
  auditReputationAlpha : Option ℚ := none
  auditReputationBeta : Option ℚ := none
  disqualified : Option (Option ℚ) := none
  unknownAuditReputationAlpha : Option ℚ := none
  unknownAuditReputationBeta : Option ℚ := none
  unknownAuditSuspended : Option (Option ℚ) := none
  auditSuccessCount : Option Int := none
  contained : Option Bool := none
  onlineScore : Option ℚ := none
  offlineSuspended : Option (Option ℚ) := none
  underReview : Option (Option ℚ) := none
deriving DecidableEq, Repr

/-- Semantics of `tx.Update_Reputation_By_Id`: each present column
overwrites the row, absent columns are untouched. -/
def applyUpdateFields (dbNode : Reputation) (u : ReputationUpdateFields) : Reputation :=
  { dbNode with
    vettedAt := u.vettedAt.getD dbNode.vettedAt
    totalAuditCount := u.totalAuditCount.getD dbNode.totalAuditCount
    auditReputationAlpha := u.auditReputationAlpha.getD dbNode.auditReputationAlpha
    auditReputationBeta := u.auditReputationBeta.getD dbNode.auditReputationBeta
    disqualified := u.disqualified.getD dbNode.disqualified
    unknownAuditReputationAlpha := u.unknownAuditReputationAlpha.getD dbNode.unknownAuditReputationAlpha
    unknownAuditReputationBeta := u.unknownAuditReputationBeta.getD dbNode.unknownAuditReputationBeta
    unknownAuditSuspended := u.unknownAuditSuspended.getD dbNode.unknownAuditSuspended
    auditSuccessCount := u.auditSuccessCount.getD dbNode.auditSuccessCount
    contained := u.contained.getD dbNode.contained
    onlineScore := u.onlineScore.getD dbNode.onlineScore
    offlineSuspended := u.offlineSuspended.getD dbNode.offlineSuspended
    underReview := u.underReview.getD dbNode.underReview }

/-- `updateReputation`: the Beta-distribution update.  `v = +1` on success,
`−1` otherwise; `newAlpha = lambda*alpha + w*(1+v)/2`,
`newBeta = lambda*beta + w*(1-v)/2`; the count is incremented. -/
def updateReputation (isSuccess : Bool) (alpha beta lambda w : ℚ) (totalCount : Int) :
    ℚ × ℚ × Int :=
  let v : ℚ := if isSuccess then 1 else -1
  let newAlpha := lambda * alpha + w * (1 + v) / 2
  let newBeta := lambda * beta + w * (1 - v) / 2
  (newAlpha, newBeta, totalCount + 1)

/-- The values produced by the `switch updateReq.AuditOutcome` block at
the top of `populateUpdateNodeStats`: the step-1 (Beta weight update)
alpha/beta values and the updated total audit count. -/
structure AuditWeightUpdate where
  auditAlpha : ℚ
  auditBeta : ℚ
  unknownAuditAlpha : ℚ
  unknownAuditBeta : ℚ
  updatedTotalAuditCount : Int
deriving DecidableEq, Repr

/-- The `switch updateReq.AuditOutcome` block of
`reputations.populateUpdateNodeStats`, lifted into its own definition so
the theorems can name the step-1 values. -/
def auditOutcomeSwitch (dbNode : Reputation) (updateReq : UpdateRequest) :
    AuditWeightUpdate :=
  let auditAlpha0 := dbNode.auditReputationAlpha
  let auditBeta0 := dbNode.auditReputationBeta
  let unknownAuditAlpha0 := dbNode.unknownAuditReputationAlpha
  let unknownAuditBeta0 := dbNode.unknownAuditReputationBeta
  let totalAuditCount := dbNode.totalAuditCount
  match updateReq.auditOutcome with
  | .success =>
      -- for a successful audit, increase reputation for normal *and* unknown audits
      let (auditAlpha, auditBeta, updatedTotalAuditCount) :=
        updateReputation true auditAlpha0 auditBeta0
          updateReq.auditLambda updateReq.auditWeight totalAuditCount
      -- we will use updatedTotalAuditCount from the updateReputation call above
      let (unknownAuditAlpha, unknownAuditBeta, _) :=
        updateReputation true unknownAuditAlpha0 unknownAuditBeta0
          updateReq.auditLambda updateReq.auditWeight totalAuditCount
      { auditAlpha := auditAlpha
        auditBeta := auditBeta
        unknownAuditAlpha := unknownAuditAlpha
        unknownAuditBeta := unknownAuditBeta
        updatedTotalAuditCount := updatedTotalAuditCount }
  | .failure =>
      -- for audit failure, only update normal alpha/beta
      let (auditAlpha, auditBeta, updatedTotalAuditCount) :=
        updateReputation false auditAlpha0 auditBeta0
          updateReq.auditLambda updateReq.auditWeight totalAuditCount
      { auditAlpha := auditAlpha
        auditBeta := auditBeta
        unknownAuditAlpha := unknownAuditAlpha0
        unknownAuditBeta := unknownAuditBeta0
        updatedTotalAuditCount := updatedTotalAuditCount }
  | .unknown =>
      -- for audit unknown, only update unknown alpha/beta
      let (unknownAuditAlpha, unknownAuditBeta, updatedTotalAuditCount) :=
        updateReputation false unknownAuditAlpha0 unknownAuditBeta0
          updateReq.auditLambda updateReq.auditWeight totalAuditCount
      { auditAlpha := auditAlpha0
        auditBeta := auditBeta0
        unknownAuditAlpha := unknownAuditAlpha
        unknownAuditBeta := unknownAuditBeta
        updatedTotalAuditCount := updatedTotalAuditCount }
  | .offline =>
      -- for audit offline, only update total audit count
      { auditAlpha := auditAlpha0
        auditBeta := auditBeta0
        unknownAuditAlpha := unknownAuditAlpha0
        unknownAuditBeta := unknownAuditBeta0
        updatedTotalAuditCount := totalAuditCount + 1 }

/-- `reputations.populateUpdateNodeStats`: the audit-outcome state machine.
Successive shadowing `let updateFields := ...` bindings mirror the Go
code's in-place mutation of `updateFields`.  `wallNow` is the wall clock
read by `time.Since` in the suspension-grace-period check; every other
timestamp comparison uses the caller-supplied `now`, exactly as in the
source. -/
def populateUpdateNodeStats (dbNode : Reputation) (updateReq : UpdateRequest)
    (auditHistoryResponse : UpdateAuditHistoryResponse) (now wallNow : ℚ) :
    updateNodeStats :=
  let vettedAt := dbNode.vettedAt
  let step1 := auditOutcomeSwitch dbNode updateReq
  let auditAlpha := step1.auditAlpha
  let auditBeta := step1.auditBeta
  let unknownAuditAlpha := step1.unknownAuditAlpha
  let unknownAuditBeta := step1.unknownAuditBeta
  let updatedTotalAuditCount := step1.updatedTotalAuditCount
  let isUp : Bool := decide (updateReq.auditOutcome ≠ .offline)
  let updateFields : updateNodeStats :=
    { totalAuditCount := { set := true, value := updatedTotalAuditCount }
      auditReputationAlpha := { set := true, value := auditAlpha }
      auditReputationBeta := { set := true, value := auditBeta }
      unknownAuditReputationAlpha := { set := true, value := unknownAuditAlpha }
      unknownAuditReputationBeta := { set := true, value := unknownAuditBeta }
      -- updating node stats always exits it from containment mode
      contained := { set := true, value := false }
      -- always update online score
      onlineScore := { set := true, value := auditHistoryResponse.newScore } }
  let updateFields :=
    if vettedAt = none ∧ updatedTotalAuditCount ≥ updateReq.auditsRequiredForVetting then
      { updateFields with vettedAt := { set := true, value := now } }
    else updateFields
  -- disqualification case a: audit reputation falls at/below the DQ threshold.
  -- (On Go floats a zero denominator yields NaN and the comparison is false;
  -- on ℚ the division is total with x / 0 = 0.)
  let auditRep := auditAlpha / (auditAlpha + auditBeta)
  let updateFields :=
    if auditRep ≤ updateReq.auditDQ then
      { updateFields with disqualified := { set := true, value := now } }
    else updateFields
  -- if unknown audit rep goes below threshold, suspend node; otherwise unsuspend.
  let unknownAuditRep := unknownAuditAlpha / (unknownAuditAlpha + unknownAuditBeta)
  let updateFields :=
    if unknownAuditRep ≤ updateReq.auditDQ then
      let updateFields :=
        if dbNode.unknownAuditSuspended = none then
          { updateFields with unknownAuditSuspended := { set := true, value := now } }
        else updateFields
      -- disqualification case b: node entered this update suspended, the grace
      -- period has elapsed, and the outcome is failed or unknown
      if updateReq.auditOutcome ≠ .success then
        match dbNode.unknownAuditSuspended with
        | some suspendedAt =>
            if updateFields.unknownAuditSuspended.set = false ∧
                wallNow - suspendedAt > updateReq.suspensionGracePeriod ∧
                updateReq.suspensionDQEnabled then
              { updateFields with
                  disqualified := { set := true, value := now }
                  unknownAuditSuspended := { set := true, isNil := true } }
            else updateFields
        | none => updateFields
      else updateFields
    else
      if dbNode.unknownAuditSuspended ≠ none then
        { updateFields with unknownAuditSuspended := { set := true, isNil := true } }
      else updateFields
  let updateFields :=
    if isUp then
      { updateFields with lastContactSuccess := { set := true, value := now } }
    else
      { updateFields with lastContactFailure := { set := true, value := now } }
  let updateFields :=
    if updateReq.auditOutcome = .success then
      { updateFields with auditSuccessCount := { set := true, value := dbNode.auditSuccessCount + 1 } }
    else updateFields
  -- if offline suspension is not enabled, skip penalization and unsuspend if applicable
  if updateReq.auditHistory.offlineSuspensionEnabled = false then
    let updateFields :=
      if dbNode.offlineSuspended ≠ none then
        { updateFields with offlineSuspended := { set := true, isNil := true } }
      else updateFields
    if dbNode.underReview ≠ none then
      { updateFields with offlineUnderReview := { set := true, isNil := true } }
    else updateFields
  else
    -- only penalize if the online score is below threshold and a full
    -- tracking period of windows has completed
    let penalizeOfflineNode : Bool :=
      decide (auditHistoryResponse.newScore < updateReq.auditHistory.offlineThreshold) &&
        auditHistoryResponse.trackingPeriodFull
    match dbNode.underReview with
    | some underReviewAt =>
        -- move node in and out of suspension as needed during the review period
        let updateFields :=
          if penalizeOfflineNode = false ∧ dbNode.offlineSuspended ≠ none then
            { updateFields with offlineSuspended := { set := true, isNil := true } }
          else if penalizeOfflineNode = true ∧ dbNode.offlineSuspended = none then
            { updateFields with offlineSuspended := { set := true, value := now } }
          else updateFields
        let gracePeriodEnd := underReviewAt + updateReq.auditHistory.gracePeriod
        let trackingPeriodEnd := gracePeriodEnd + updateReq.auditHistory.trackingPeriod
        let trackingPeriodPassed : Bool := decide (now > trackingPeriodEnd)
        -- after the tracking period, either clear the review or disqualify
        if trackingPeriodPassed then
          if penalizeOfflineNode then
            if updateReq.auditHistory.offlineDQEnabled then
              { updateFields with disqualified := { set := true, value := now } }
            else updateFields
          else
            { updateFields with
                offlineUnderReview := { set := true, isNil := true }
                offlineSuspended := { set := true, isNil := true } }
        else updateFields
    | none =>
        if penalizeOfflineNode then
          -- suspend node for being offline and begin review period
          { updateFields with
              offlineUnderReview := { set := true, value := now }
              offlineSuspended := { set := true, value := now } }
        else updateFields

/-- `reputations.populateUpdateFields`: converts the computed
`updateNodeStats` into the sparse column update. -/
def populateUpdateFields (dbNode : Reputation) (updateReq : UpdateRequest)
    (auditHistoryResponse : UpdateAuditHistoryResponse) (now wallNow : ℚ) :
    ReputationUpdateFields :=
  let update := populateUpdateNodeStats dbNode updateReq auditHistoryResponse now wallNow
  let updateFields : ReputationUpdateFields := {}
  let updateFields :=
    if update.vettedAt.set then
      { updateFields with vettedAt := some (some update.vettedAt.value) }
    else updateFields
  let updateFields :=
    if update.totalAuditCount.set then
      { updateFields with totalAuditCount := some update.totalAuditCount.value }
    else updateFields
  let updateFields :=
    if update.auditReputationAlpha.set then
      { updateFields with auditReputationAlpha := some update.auditReputationAlpha.value }
    else updateFields
  let updateFields :=
    if update.auditReputationBeta.set then
      { updateFields with auditReputationBeta := some update.auditReputationBeta.value }
    else updateFields
  let updateFields :=
    if update.disqualified.set then
      { updateFields with disqualified := some (some update.disqualified.value) }
    else updateFields
  let updateFields :=
    if update.unknownAuditReputationAlpha.set then
      { updateFields with unknownAuditReputationAlpha := some update.unknownAuditReputationAlpha.value }
    else updateFields
  let updateFields :=
    if update.unknownAuditReputationBeta.set then
      { updateFields with unknownAuditReputationBeta := some update.unknownAuditReputationBeta.value }
    else updateFields
  let updateFields :=
    if update.unknownAuditSuspended.set then
      if update.unknownAuditSuspended.isNil then
        { updateFields with unknownAuditSuspended := some none }
      else
        { updateFields with unknownAuditSuspended := some (some update.unknownAuditSuspended.value) }
    else updateFields
  let updateFields :=
    if update.auditSuccessCount.set then
      { updateFields with auditSuccessCount := some update.auditSuccessCount.value }
    else updateFields
  let updateFields :=
    if update.contained.set then
      { updateFields with contained := some update.contained.value }
    else updateFields
  let updateFields :=
    if updateReq.auditOutcome = .success then
      { updateFields with auditSuccessCount := some (dbNode.auditSuccessCount + 1) }
    else updateFields
  let updateFields :=
    if update.onlineScore.set then
      { updateFields with onlineScore := some update.onlineScore.value }
    else updateFields
  let updateFields :=
    if update.offlineSuspended.set then
      if update.offlineSuspended.isNil then
        { updateFields with offlineSuspended := some none }
      else
        { updateFields with offlineSuspended := some (some update.offlineSuspended.value) }
    else updateFields
  let updateFields :=
    if update.offlineUnderReview.set then
      if update.offlineUnderReview.isNil then
        { updateFields with underReview := some none }
      else
        { updateFields with underReview := some (some update.offlineUnderReview.value) }
    else updateFields
  updateFields

/-- `getNodeStatus`: projects the row to its `overlay.ReputationStatus`. -/
def getNodeStatus (dbNode : Reputation) : ReputationStatus :=
  { contained := dbNode.contained
    vettedAt := dbNode.vettedAt
    disqualified := dbNode.disqualified
    unknownAuditSuspended := dbNode.unknownAuditSuspended
    offlineSuspended := dbNode.offlineSuspended }

/-- The value returned by `reputations.Update`: the row after the call,
the projected status, and the `changed` flag. -/
structure UpdateResult where
  record : Reputation
  status : ReputationStatus
  changed : Bool
deriving DecidableEq, Repr

/-- `reputations.Update`.  `recOpt` is the row currently stored for the
node (`none` when the lazy `INSERT` path runs); `now` is the caller's
timestamp, `wallNow` the wall clock read by `time.Since`.  Storage
failures abort without visible effect and are not modelled.  Note that
the Go local `oldStatus` is only assigned *after* the disqualified check:
on the early-return path `changed` is computed against the zero-value
status. -/
def Update (recOpt : Option Reputation) (updateReq : UpdateRequest)
    (auditHistoryResponse : UpdateAuditHistoryResponse) (now wallNow : ℚ) :
    UpdateResult :=
  let dbNode := match recOpt with
    | none => zeroReputation
    | some r => r
  -- do not update reputation if node is disqualified
  if dbNode.disqualified ≠ none then
    { record := dbNode
      status := getNodeStatus dbNode
      changed := !ReputationStatus.Equal {} (getNodeStatus dbNode) }
  else
    let oldStatus : ReputationStatus :=
      { contained := dbNode.contained
        disqualified := dbNode.disqualified
        unknownAuditSuspended := dbNode.unknownAuditSuspended
        offlineSuspended := dbNode.offlineSuspended
        vettedAt := dbNode.vettedAt }
    -- Modelled from the spec: `updateAuditHistoryWithTx` (not in the
    -- sources) persists the tracker's returned history blob to the row
    -- before the sparse field update is applied.
    let dbNode1 := { dbNode with auditHistory := auditHistoryResponse.history }
    let updateFields := populateUpdateFields dbNode updateReq auditHistoryResponse now wallNow
    let newNode := applyUpdateFields dbNode1 updateFields
    { record := newNode
      status := getNodeStatus newNode
      changed := !ReputationStatus.Equal oldStatus (getNodeStatus newNode) }

/-- Error kinds surfaced by the direct-transition operations. -/
inductive DBError
  | notFound
  | alreadyExists
deriving DecidableEq, Repr

/-- `reputations.UnsuspendNodeUnknownAudit`: reads the row, lazily inserts
a zero-value row (empty audit history) when none exists, then clears
`unknownAuditSuspended`.  The missing-row case is handled by the insert,
never surfaced as `DBError.notFound`. -/
def UnsuspendNodeUnknownAudit (recOpt : Option Reputation) : Except DBError Reputation :=
  let dbNode := match recOpt with
    | none => zeroReputation
    | some r => r
  .ok (applyUpdateFields dbNode { unknownAuditSuspended := some none })

/-- The exact firing condition of disqualification case b (the
unknown-audit grace-period criterion) in `populateUpdateNodeStats`: the
step-1 unknown score is at or below the threshold, the outcome is not
Success, suspension-triggered disqualification is enabled, and the node
entered the update already suspended at some `t` with
`wallNow − t` beyond the grace period.  (When the node entered already
suspended, `updateFields.UnknownAuditSuspended` is still unset at the
check, so the source's `!updateFields.UnknownAuditSuspended.set`
conjunct is implied.) -/
def suspensionDQCriterion (rec : Reputation) (req : UpdateRequest) (wallNow : ℚ) : Prop :=
  (auditOutcomeSwitch rec req).unknownAuditAlpha /
      ((auditOutcomeSwitch rec req).unknownAuditAlpha
        + (auditOutcomeSwitch rec req).unknownAuditBeta) ≤ req.auditDQ ∧
  req.auditOutcome ≠ .success ∧
  req.suspensionDQEnabled = true ∧
  ∃ t, rec.unknownAuditSuspended = some t ∧
    wallNow - t > req.suspensionGracePeriod

/-! Concrete inputs used by the witnesses and counterexamples. -/

/-- A record that is already disqualified and still flagged as contained
(reachable e.g. by `DisqualifyNode` on a contained node, or by
`SetNodeStatus`). -/
def containedDisqualifiedRecord : Reputation :=
  { contained := true
    disqualified := some 0
    auditReputationAlpha := 1
    auditReputationBeta := 1
    unknownAuditReputationAlpha := 1
    unknownAuditReputationBeta := 1 }

/-- A contained but otherwise zero-value record. -/
def containedRecord : Reputation :=
  { contained := true }

/-- Scenario A record: fresh record with `alpha = beta = 1` on both tracks. -/
def scenarioARecord : Reputation :=
  { auditReputationAlpha := 1
    auditReputationBeta := 1
    unknownAuditReputationAlpha := 1
    unknownAuditReputationBeta := 1 }

/-- Scenario A request: outcome Success, `auditLambda = auditWeight = 1`. -/
def scenarioARequest : UpdateRequest :=
  { auditOutcome := .success
    auditLambda := 1
    auditWeight := 1
    auditDQ := 6/10
    auditsRequiredForVetting := 100 }

/-- An Offline-outcome request. -/
def offlineRequest : UpdateRequest :=
  { auditOutcome := .offline
    auditLambda := 1
    auditWeight := 1
    auditDQ := 6/10
    auditsRequiredForVetting := 100 }

/-- Scenario C record: healthy audit track, unknown-audit score
`1/11 ≤ 0.6`, already unknown-suspended at `now − 100`. -/
def scenarioCRecord : Reputation :=
  { auditReputationAlpha := 1
    auditReputationBeta := 1
    unknownAuditReputationAlpha := 1
    unknownAuditReputationBeta := 10
    unknownAuditSuspended := some (-100) }

/-- Scenario C request: outcome Failure, grace period 48,
suspension-triggered disqualification enabled. -/
def scenarioCRequest : UpdateRequest :=
  { auditOutcome := .failure
    auditLambda := 1
    auditWeight := 1
    auditDQ := 6/10
    suspensionGracePeriod := 48
    suspensionDQEnabled := true }

/-- A record under offline review (since time 0) with healthy audit
scores on both tracks. -/
def underReviewRecord : Reputation :=
  { auditReputationAlpha := 10
    auditReputationBeta := 1
    unknownAuditReputationAlpha := 10
    unknownAuditReputationBeta := 1
    underReview := some 0
    offlineSuspended := some 0 }

/-- Like `underReviewRecord` but with a failing audit track
(`0.1 / 10.1 ≤ auditDQ` after one more failure). -/
def underReviewBadAuditRecord : Reputation :=
  { auditReputationAlpha := 1/10
    auditReputationBeta := 10
    unknownAuditReputationAlpha := 10
    unknownAuditReputationBeta := 1
    underReview := some 0
    offlineSuspended := some 0 }

/-- Offline-review request: offline suspension enabled, offline
disqualification disabled, grace and tracking periods of length 1. -/
def reviewRequest : UpdateRequest :=
  { auditOutcome := .failure
    auditLambda := 1
    auditWeight := 1
    auditDQ := 1/10
    auditHistory := { gracePeriod := 1
                      trackingPeriod := 1
                      offlineThreshold := 1/2
                      offlineDQEnabled := false
                      offlineSuspensionEnabled := true } }

/-- A tracker response reporting a zero online score over a full tracking
period. -/
def penalizingResponse : UpdateAuditHistoryResponse :=
  { newScore := 0
    trackingPeriodFull := true }

/-- A record one audit short of the vetting threshold of
`vettingRequest`. -/
def almostVettedRecord : Reputation :=
  { totalAuditCount := 4
    auditReputationAlpha := 10
    auditReputationBeta := 1
    unknownAuditReputationAlpha := 10
    unknownAuditReputationBeta := 1 }

/-- A request with `auditsRequiredForVetting = 5`. -/
def vettingRequest : UpdateRequest :=
  { auditOutcome := .failure
    auditLambda := 1
    auditWeight := 1
    auditDQ := 1/10
    auditsRequiredForVetting := 5 }

/-! Helper lemmas shared by the claim theorems. -/

/-- The lazy-creation path processes the zero-value record. -/
theorem Update_none_eq (updateReq : UpdateRequest)
    (resp : UpdateAuditHistoryResponse) (now wallNow : ℚ) :
    Update none updateReq resp now wallNow
      = Update (some zeroReputation) updateReq resp now wallNow := rfl

/-- On a disqualified record, `Update` returns the row and its status
unchanged, and computes `changed` against the zero-value old status. -/
theorem Update_disqualified_eq (rec : Reputation) (updateReq : UpdateRequest)
    (resp : UpdateAuditHistoryResponse) (now wallNow : ℚ)
    (h : rec.disqualified ≠ none) :
    Update (some rec) updateReq resp now wallNow
      = { record := rec
          status := getNodeStatus rec
          changed := !ReputationStatus.Equal {} (getNodeStatus rec) } := by
  simp [Update, h]

/-- Every branch of the outcome switch increments the total audit count
by exactly one. -/
theorem auditOutcomeSwitch_totalCount (rec : Reputation) (req : UpdateRequest) :
    (auditOutcomeSwitch rec req).updatedTotalAuditCount = rec.totalAuditCount + 1 := by
  cases h : req.auditOutcome <;> simp [auditOutcomeSwitch, updateReputation, h]

/-- On a Success outcome the switch applies the Beta rule with `v = +1`
to both tracks. -/
theorem auditOutcomeSwitch_success (rec : Reputation) (req : UpdateRequest)
    (hout : req.auditOutcome = .success) :
    auditOutcomeSwitch rec req
      = { auditAlpha := req.auditLambda * rec.auditReputationAlpha
            + req.auditWeight * (1 + 1) / 2
          auditBeta := req.auditLambda * rec.auditReputationBeta
            + req.auditWeight * (1 - 1) / 2
          unknownAuditAlpha := req.auditLambda * rec.unknownAuditReputationAlpha
            + req.auditWeight * (1 + 1) / 2
          unknownAuditBeta := req.auditLambda * rec.unknownAuditReputationBeta
            + req.auditWeight * (1 - 1) / 2
          updatedTotalAuditCount := rec.totalAuditCount + 1 } := by
  simp [auditOutcomeSwitch, updateReputation, hout]

/-- On a non-disqualified record, the stored audit alpha after `Update`
is the step-1 value. -/
theorem Update_record_auditAlpha (rec : Reputation) (req : UpdateRequest)
    (resp : UpdateAuditHistoryResponse) (now wallNow : ℚ)
    (hdq : rec.disqualified = none) :
    (Update (some rec) req resp now wallNow).record.auditReputationAlpha
      = (auditOutcomeSwitch rec req).auditAlpha := by
  cases hsus : rec.unknownAuditSuspended <;> cases hur : rec.underReview <;>
  simp [Update, populateUpdateFields, populateUpdateNodeStats, applyUpdateFields,
    hdq, hsus, hur,
    apply_ite (ReputationUpdateFields.auditReputationAlpha),
    apply_ite (updateNodeStats.auditReputationAlpha)]

/-- On a non-disqualified record, the stored audit beta after `Update`
is the step-1 value. -/
theorem Update_record_auditBeta (rec : Reputation) (req : UpdateRequest)
    (resp : UpdateAuditHistoryResponse) (now wallNow : ℚ)
    (hdq : rec.disqualified = none) :
    (Update (some rec) req resp now wallNow).record.auditReputationBeta
      = (auditOutcomeSwitch rec req).auditBeta := by
  cases hsus : rec.unknownAuditSuspended <;> cases hur : rec.underReview <;>
  simp [Update, populateUpdateFields, populateUpdateNodeStats, applyUpdateFields,
    hdq, hsus, hur,
    apply_ite (ReputationUpdateFields.auditReputationBeta),
    apply_ite (updateNodeStats.auditReputationBeta)]

/-- On a non-disqualified record, the stored unknown-audit alpha after
`Update` is the step-1 value. -/
theorem Update_record_unknownAuditAlpha (rec : Reputation) (req : UpdateRequest)
    (resp : UpdateAuditHistoryResponse) (now wallNow : ℚ)
    (hdq : rec.disqualified = none) :
    (Update (some rec) req resp now wallNow).record.unknownAuditReputationAlpha
      = (auditOutcomeSwitch rec req).unknownAuditAlpha := by
  cases hsus : rec.unknownAuditSuspended <;> cases hur : rec.underReview <;>
  simp [Update, populateUpdateFields, populateUpdateNodeStats, applyUpdateFields,
    hdq, hsus, hur,
    apply_ite (ReputationUpdateFields.unknownAuditReputationAlpha),
    apply_ite (updateNodeStats.unknownAuditReputationAlpha)]

/-- On a non-disqualified record, the stored unknown-audit beta after
`Update` is the step-1 value. -/
theorem Update_record_unknownAuditBeta (rec : Reputation) (req : UpdateRequest)
    (resp : UpdateAuditHistoryResponse) (now wallNow : ℚ)
    (hdq : rec.disqualified = none) :
    (Update (some rec) req resp now wallNow).record.unknownAuditReputationBeta
      = (auditOutcomeSwitch rec req).unknownAuditBeta := by
  cases hsus : rec.unknownAuditSuspended <;> cases hur : rec.underReview <;>
  simp [Update, populateUpdateFields, populateUpdateNodeStats, applyUpdateFields,
    hdq, hsus, hur,
    apply_ite (ReputationUpdateFields.unknownAuditReputationBeta),
    apply_ite (updateNodeStats.unknownAuditReputationBeta)]

/-- On a non-disqualified record, the stored total audit count after
`Update` is the step-1 value. -/
theorem Update_record_totalAuditCount (rec : Reputation) (req : UpdateRequest)
    (resp : UpdateAuditHistoryResponse) (now wallNow : ℚ)
    (hdq : rec.disqualified = none) :
    (Update (some rec) req resp now wallNow).record.totalAuditCount
      = (auditOutcomeSwitch rec req).updatedTotalAuditCount := by
  cases hsus : rec.unknownAuditSuspended <;> cases hur : rec.underReview <;>
  simp [Update, populateUpdateFields, populateUpdateNodeStats, applyUpdateFields,
    hdq, hsus, hur,
    apply_ite (ReputationUpdateFields.totalAuditCount),
    apply_ite (updateNodeStats.totalAuditCount)]

/-- On a non-disqualified record, a Success outcome increments the stored
audit success count. -/
theorem Update_record_auditSuccessCount (rec : Reputation) (req : UpdateRequest)
    (resp : UpdateAuditHistoryResponse) (now wallNow : ℚ)
    (hdq : rec.disqualified = none) (hout : req.auditOutcome = .success) :
    (Update (some rec) req resp now wallNow).record.auditSuccessCount
      = rec.auditSuccessCount + 1 := by
  cases hsus : rec.unknownAuditSuspended <;> cases hur : rec.underReview <;>
  simp [Update, populateUpdateFields, populateUpdateNodeStats, applyUpdateFields,
    hdq, hsus, hur, hout,
    apply_ite (ReputationUpdateFields.auditSuccessCount),
    apply_ite (updateNodeStats.auditSuccessCount)]

/-- On a non-disqualified record, `vettedAt` after `Update` is set to
`now` exactly when it was unset and the updated total reaches the vetting
threshold, and is untouched otherwise. -/
theorem Update_record_vettedAt (rec : Reputation) (req : UpdateRequest)
    (resp : UpdateAuditHistoryResponse) (now wallNow : ℚ)
    (hdq : rec.disqualified = none) :
    (Update (some rec) req resp now wallNow).record.vettedAt
      = if rec.vettedAt = none ∧
            (auditOutcomeSwitch rec req).updatedTotalAuditCount
              ≥ req.auditsRequiredForVetting
        then some now else rec.vettedAt := by
  cases hsus : rec.unknownAuditSuspended <;> cases hur : rec.underReview <;>
  simp [Update, populateUpdateFields, populateUpdateNodeStats, applyUpdateFields,
    hdq, hsus, hur,
    apply_ite (ReputationUpdateFields.vettedAt),
    apply_ite (updateNodeStats.vettedAt),
    apply_ite (timeField.set), apply_ite (timeField.value)] <;>
  (split <;> simp)

/-- All four step-1 outputs stay strictly positive when the inputs are
strictly positive, `lambda > 0` and `weight ≥ 0`. -/
theorem auditOutcomeSwitch_pos (rec : Reputation) (req : UpdateRequest)
    (hl : 0 < req.auditLambda) (hw : 0 ≤ req.auditWeight)
    (ha : 0 < rec.auditReputationAlpha) (hb : 0 < rec.auditReputationBeta)
    (hua : 0 < rec.unknownAuditReputationAlpha)
    (hub : 0 < rec.unknownAuditReputationBeta) :
    0 < (auditOutcomeSwitch rec req).auditAlpha ∧
    0 < (auditOutcomeSwitch rec req).auditBeta ∧
    0 < (auditOutcomeSwitch rec req).unknownAuditAlpha ∧
    0 < (auditOutcomeSwitch rec req).unknownAuditBeta := by
  cases hout : req.auditOutcome <;>
    simp [auditOutcomeSwitch, updateReputation, hout] <;>
    refine ⟨?_, ?_, ?_, ?_⟩ <;>
    nlinarith [mul_pos hl ha, mul_pos hl hb, mul_pos hl hua, mul_pos hl hub]

/-! The claim theorems. -/

/-- Claim C1: an `Update` call on a record whose disqualified timestamp is
already set succeeds as a no-op — every field of the record is exactly as
before the call, and the returned status is the record's current,
unchanged status. -/
theorem update_on_disqualified_is_noop (rec : Reputation) (req : UpdateRequest)
    (resp : UpdateAuditHistoryResponse) (now wallNow d : ℚ)
    (hd : rec.disqualified = some d) :
    (Update (some rec) req resp now wallNow).record = rec ∧
    (Update (some rec) req resp now wallNow).status = getNodeStatus rec := by
  have h : rec.disqualified ≠ none := by simp [hd]
  rw [Update_disqualified_eq rec req resp now wallNow h]
  exact ⟨rfl, rfl⟩

/-- Witness for C1 at a concrete disqualified record. -/
theorem update_on_disqualified_is_noop_witness :
    containedDisqualifiedRecord.disqualified = some 0 ∧
    ((Update (some containedDisqualifiedRecord) scenarioARequest {} 5 5).record
        = containedDisqualifiedRecord ∧
      (Update (some containedDisqualifiedRecord) scenarioARequest {} 5 5).status
        = getNodeStatus containedDisqualifiedRecord) :=
  ⟨by decide,
   update_on_disqualified_is_noop containedDisqualifiedRecord scenarioARequest {} 5 5 0
     (by decide)⟩

/-- Claim C2 (amended): a Success `Update` on a record that is not
already disqualified applies the Beta rule with `v = +1` to both the
audit and the unknown-audit pair, increments `totalAuditCount` by one
and `auditSuccessCount` by one.  (As stated over every Success call the
claim fails: on an already-disqualified record the call is a no-op and
neither count changes.) -/
theorem update_success_applies_beta_rule (rec : Reputation) (req : UpdateRequest)
    (resp : UpdateAuditHistoryResponse) (now wallNow : ℚ)
    (hdq : rec.disqualified = none) (hout : req.auditOutcome = .success) :
    (Update (some rec) req resp now wallNow).record.auditReputationAlpha
      = req.auditLambda * rec.auditReputationAlpha + req.auditWeight * (1 + 1) / 2 ∧
    (Update (some rec) req resp now wallNow).record.auditReputationBeta
      = req.auditLambda * rec.auditReputationBeta + req.auditWeight * (1 - 1) / 2 ∧
    (Update (some rec) req resp now wallNow).record.unknownAuditReputationAlpha
      = req.auditLambda * rec.unknownAuditReputationAlpha + req.auditWeight * (1 + 1) / 2 ∧
    (Update (some rec) req resp now wallNow).record.unknownAuditReputationBeta
      = req.auditLambda * rec.unknownAuditReputationBeta + req.auditWeight * (1 - 1) / 2 ∧
    (Update (some rec) req resp now wallNow).record.totalAuditCount
      = rec.totalAuditCount + 1 ∧
    (Update (some rec) req resp now wallNow).record.auditSuccessCount
      = rec.auditSuccessCount + 1 := by
  refine ⟨?_, ?_, ?_, ?_, ?_, ?_⟩
  · rw [Update_record_auditAlpha rec req resp now wallNow hdq,
      auditOutcomeSwitch_success rec req hout]
  · rw [Update_record_auditBeta rec req resp now wallNow hdq,
      auditOutcomeSwitch_success rec req hout]
  · rw [Update_record_unknownAuditAlpha rec req resp now wallNow hdq,
      auditOutcomeSwitch_success rec req hout]
  · rw [Update_record_unknownAuditBeta rec req resp now wallNow hdq,
      auditOutcomeSwitch_success rec req hout]
  · rw [Update_record_totalAuditCount rec req resp now wallNow hdq,
      auditOutcomeSwitch_totalCount]
  · exact Update_record_auditSuccessCount rec req resp now wallNow hdq hout

/-- Witness for C2: Scenario A — fresh record with `alpha = beta = 1` on
both tracks, `auditWeight = auditLambda = 1`, outcome Success, giving
`auditAlpha = 2, auditBeta = 1, unknownAuditAlpha = 2,
unknownAuditBeta = 1, totalAuditCount = 1, auditSuccessCount = 1`. -/
theorem update_success_applies_beta_rule_witness :
    scenarioARecord.disqualified = none ∧
    scenarioARequest.auditOutcome = .success ∧
    (Update (some scenarioARecord) scenarioARequest {} 5 5).record.auditReputationAlpha = 2 ∧
    (Update (some scenarioARecord) scenarioARequest {} 5 5).record.auditReputationBeta = 1 ∧
    (Update (some scenarioARecord) scenarioARequest {} 5 5).record.unknownAuditReputationAlpha = 2 ∧
    (Update (some scenarioARecord) scenarioARequest {} 5 5).record.unknownAuditReputationBeta = 1 ∧
    (Update (some scenarioARecord) scenarioARequest {} 5 5).record.totalAuditCount = 1 ∧
    (Update (some scenarioARecord) scenarioARequest {} 5 5).record.auditSuccessCount = 1 := by
  obtain ⟨h1, h2, h3, h4, h5, h6⟩ :=
    update_success_applies_beta_rule scenarioARecord scenarioARequest {} 5 5 rfl rfl
  refine ⟨rfl, rfl, ?_, ?_, ?_, ?_, ?_, ?_⟩
  · rw [h1]; norm_num [scenarioARecord, scenarioARequest]
  · rw [h2]; norm_num [scenarioARecord, scenarioARequest]
  · rw [h3]; norm_num [scenarioARecord, scenarioARequest]
  · rw [h4]; norm_num [scenarioARecord, scenarioARequest]
  · rw [h5]; norm_num [scenarioARecord]
  · rw [h6]; norm_num [scenarioARecord]

/-- Counterexample to C2 as stated: a Success `Update` on an
already-disqualified record is a no-op — `totalAuditCount` and
`auditSuccessCount` do not increase and the audit alpha keeps its old
value instead of `lambda*alpha + weight = 2`. -/
theorem update_success_applies_beta_rule_counterexample :
    scenarioARequest.auditOutcome = .success ∧
    containedDisqualifiedRecord.disqualified = some 0 ∧
    (Update (some containedDisqualifiedRecord) scenarioARequest {} 5 5).record.totalAuditCount
      = containedDisqualifiedRecord.totalAuditCount ∧
    ¬((Update (some containedDisqualifiedRecord) scenarioARequest {} 5 5).record.totalAuditCount
      = containedDisqualifiedRecord.totalAuditCount + 1) ∧
    (Update (some containedDisqualifiedRecord) scenarioARequest {} 5 5).record.auditSuccessCount
      = containedDisqualifiedRecord.auditSuccessCount ∧
    (Update (some containedDisqualifiedRecord) scenarioARequest {} 5 5).record.auditReputationAlpha
      = containedDisqualifiedRecord.auditReputationAlpha := by
  decide

/-- Claim C6 (amended): after every successful `Update` call on a record
that is not already disqualified, the record's contained flag is false.
(The disqualified early return writes nothing, so a disqualified record
keeps a stale `contained = true`.) -/
theorem update_clears_contained (rec : Reputation) (req : UpdateRequest)
    (resp : UpdateAuditHistoryResponse) (now wallNow : ℚ)
    (hdq : rec.disqualified = none) :
    (Update (some rec) req resp now wallNow).record.contained = false := by
  cases hsus : rec.unknownAuditSuspended <;> cases hur : rec.underReview <;>
  simp [Update, populateUpdateFields, populateUpdateNodeStats, applyUpdateFields,
    hdq, hsus, hur,
    apply_ite (ReputationUpdateFields.contained),
    apply_ite (updateNodeStats.contained)]

/-- Witness for C6 (amended) at a concrete contained, not disqualified
record. -/
theorem update_clears_contained_witness :
    containedRecord.disqualified = none ∧
    (Update (some containedRecord) scenarioARequest {} 5 5).record.contained = false :=
  ⟨by decide, update_clears_contained containedRecord scenarioARequest {} 5 5 (by decide)⟩

/-- Counterexample to C6 as stated: a successful `Update` call on an
already-disqualified record that is still flagged contained leaves
`contained = true`. -/
theorem update_clears_contained_counterexample :
    containedDisqualifiedRecord.contained = true ∧
    (Update (some containedDisqualifiedRecord) offlineRequest {} 5 5).record.contained = true := by
  decide

/-- Claim C7: on a not-yet-disqualified record, `vettedAt` is set to `now`
exactly when it was unset and the updated `totalAuditCount` reaches
`auditsRequiredForVetting`; in every other case it is unchanged. -/
theorem update_vetting_rule (rec : Reputation) (req : UpdateRequest)
    (resp : UpdateAuditHistoryResponse) (now wallNow : ℚ)
    (hdq : rec.disqualified = none) :
    ((rec.vettedAt = none ∧ rec.totalAuditCount + 1 ≥ req.auditsRequiredForVetting) →
      (Update (some rec) req resp now wallNow).record.vettedAt = some now) ∧
    (¬(rec.vettedAt = none ∧ rec.totalAuditCount + 1 ≥ req.auditsRequiredForVetting) →
      (Update (some rec) req resp now wallNow).record.vettedAt = rec.vettedAt) := by
  have h := Update_record_vettedAt rec req resp now wallNow hdq
  rw [auditOutcomeSwitch_totalCount] at h
  constructor
  · intro hc
    rw [h, if_pos hc]
  · intro hc
    rw [h, if_neg hc]

/-- Witness for C7: Scenario D — a record one audit short of the vetting
threshold becomes vetted at `now`; a record already vetted keeps its
timestamp. -/
theorem update_vetting_rule_witness :
    almostVettedRecord.disqualified = none ∧
    (almostVettedRecord.vettedAt = none ∧
      almostVettedRecord.totalAuditCount + 1 ≥ vettingRequest.auditsRequiredForVetting) ∧
    (Update (some almostVettedRecord) vettingRequest {} 7 7).record.vettedAt = some 7 :=
  ⟨by decide, by decide,
   (update_vetting_rule almostVettedRecord vettingRequest {} 7 7 (by decide)).1 (by decide)⟩

/-- Claim C3 (amended): for every record whose four alpha/beta parameters
are strictly positive, and every `Update` call with `auditLambda > 0` and
`auditWeight ≥ 0`, all four parameters are strictly positive after the
call.  (The claim as stated fails on a lazily created record, whose
parameters start at zero and stay at zero on an Offline outcome.) -/
theorem update_preserves_positive_params (rec : Reputation) (req : UpdateRequest)
    (resp : UpdateAuditHistoryResponse) (now wallNow : ℚ)
    (hl : 0 < req.auditLambda) (hw : 0 ≤ req.auditWeight)
    (ha : 0 < rec.auditReputationAlpha) (hb : 0 < rec.auditReputationBeta)
    (hua : 0 < rec.unknownAuditReputationAlpha)
    (hub : 0 < rec.unknownAuditReputationBeta) :
    0 < (Update (some rec) req resp now wallNow).record.auditReputationAlpha ∧
    0 < (Update (some rec) req resp now wallNow).record.auditReputationBeta ∧
    0 < (Update (some rec) req resp now wallNow).record.unknownAuditReputationAlpha ∧
    0 < (Update (some rec) req resp now wallNow).record.unknownAuditReputationBeta := by
  obtain ⟨p1, p2, p3, p4⟩ := auditOutcomeSwitch_pos rec req hl hw ha hb hua hub
  by_cases hdq : rec.disqualified = none
  · rw [Update_record_auditAlpha rec req resp now wallNow hdq,
      Update_record_auditBeta rec req resp now wallNow hdq,
      Update_record_unknownAuditAlpha rec req resp now wallNow hdq,
      Update_record_unknownAuditBeta rec req resp now wallNow hdq]
    exact ⟨p1, p2, p3, p4⟩
  · rw [Update_disqualified_eq rec req resp now wallNow hdq]
    exact ⟨ha, hb, hua, hub⟩

/-- Witness for C3 (amended) at Scenario A's record with a Failure
request. -/
theorem update_preserves_positive_params_witness :
    (0 < vettingRequest.auditLambda ∧ 0 ≤ vettingRequest.auditWeight ∧
      0 < scenarioARecord.auditReputationAlpha ∧
      0 < scenarioARecord.auditReputationBeta ∧
      0 < scenarioARecord.unknownAuditReputationAlpha ∧
      0 < scenarioARecord.unknownAuditReputationBeta) ∧
    (0 < (Update (some scenarioARecord) vettingRequest {} 5 5).record.auditReputationAlpha ∧
      0 < (Update (some scenarioARecord) vettingRequest {} 5 5).record.auditReputationBeta ∧
      0 < (Update (some scenarioARecord) vettingRequest {} 5 5).record.unknownAuditReputationAlpha ∧
      0 < (Update (some scenarioARecord) vettingRequest {} 5 5).record.unknownAuditReputationBeta) :=
  ⟨⟨by decide, by decide, by decide, by decide, by decide, by decide⟩,
   update_preserves_positive_params scenarioARecord vettingRequest {} 5 5
     (by decide) (by decide) (by decide) (by decide) (by decide) (by decide)⟩

/-- Counterexample to C3 as stated: an Offline `Update` on the lazily
created zero-value record leaves all four parameters at zero, so they are
not strictly positive after the call. -/
theorem update_positive_params_counterexample :
    (Update none offlineRequest {} 5 5).record.auditReputationAlpha = 0 ∧
    (Update none offlineRequest {} 5 5).record.auditReputationBeta = 0 ∧
    (Update none offlineRequest {} 5 5).record.unknownAuditReputationAlpha = 0 ∧
    (Update none offlineRequest {} 5 5).record.unknownAuditReputationBeta = 0 ∧
    ¬(0 < (Update none offlineRequest {} 5 5).record.auditReputationAlpha) := by
  have hz : (zeroReputation : Reputation).disqualified = none := rfl
  rw [Update_none_eq,
    Update_record_auditAlpha zeroReputation offlineRequest {} 5 5 hz,
    Update_record_auditBeta zeroReputation offlineRequest {} 5 5 hz,
    Update_record_unknownAuditAlpha zeroReputation offlineRequest {} 5 5 hz,
    Update_record_unknownAuditBeta zeroReputation offlineRequest {} 5 5 hz]
  refine ⟨?_, ?_, ?_, ?_, ?_⟩ <;>
    simp [auditOutcomeSwitch, offlineRequest, zeroReputation]

/-- Claim C4 (amended): on a record that is not already disqualified,
`changed` equals whether the projected status tuple after the call differs
from the projection before it; on an already-disqualified record the call
is a no-op but `changed` is computed against a zero-value old status and
is therefore true. -/
theorem update_changed_flag (rec : Reputation) (req : UpdateRequest)
    (resp : UpdateAuditHistoryResponse) (now wallNow : ℚ) :
    (rec.disqualified = none →
      (Update (some rec) req resp now wallNow).changed
        = decide (getNodeStatus rec ≠ (Update (some rec) req resp now wallNow).status)) ∧
    (rec.disqualified ≠ none →
      (Update (some rec) req resp now wallNow).changed = true) := by
  constructor
  · intro hdq
    simp [Update, hdq, ReputationStatus.Equal, getNodeStatus, decide_not]
  · intro hd
    rw [Update_disqualified_eq rec req resp now wallNow hd]
    cases hds : rec.disqualified with
    | none => exact absurd hds hd
    | some d =>
        simp [ReputationStatus.Equal, getNodeStatus, hds, ReputationStatus.mk.injEq]

/-- Witness for C4 (amended): the equality on a concrete non-disqualified
record, and `changed = true` on a concrete disqualified record. -/
theorem update_changed_flag_witness :
    ((Update (some scenarioARecord) scenarioARequest {} 5 5).changed
      = decide (getNodeStatus scenarioARecord
          ≠ (Update (some scenarioARecord) scenarioARequest {} 5 5).status)) ∧
    (Update (some containedDisqualifiedRecord) scenarioARequest {} 5 5).changed = true :=
  ⟨(update_changed_flag scenarioARecord scenarioARequest {} 5 5).1 (by decide),
   (update_changed_flag containedDisqualifiedRecord scenarioARequest {} 5 5).2 (by decide)⟩

/-- Counterexample to C4 as stated: on an already-disqualified record the
status projection is unchanged by the call, yet `changed` is returned
true. -/
theorem update_changed_flag_counterexample :
    (Update (some containedDisqualifiedRecord) scenarioARequest {} 5 5).status
        = getNodeStatus containedDisqualifiedRecord ∧
    (Update (some containedDisqualifiedRecord) scenarioARequest {} 5 5).record
        = containedDisqualifiedRecord ∧
    (Update (some containedDisqualifiedRecord) scenarioARequest {} 5 5).changed = true := by
  decide

/-- Claim C8: on the reachable input `Update` with an Offline outcome on
the lazily created zero-value record, the step-1 values make both
score denominators (`auditAlpha + auditBeta` and
`unknownAuditAlpha + unknownAuditBeta`) zero, and the update still runs —
there is no zero-denominator guard before the score divisions in
`populateUpdateNodeStats` (on Go floats those divisions yield NaN). -/
theorem update_zero_denominator_scores :
    (auditOutcomeSwitch zeroReputation offlineRequest).auditAlpha
        + (auditOutcomeSwitch zeroReputation offlineRequest).auditBeta = 0 ∧
    (auditOutcomeSwitch zeroReputation offlineRequest).unknownAuditAlpha
        + (auditOutcomeSwitch zeroReputation offlineRequest).unknownAuditBeta = 0 ∧
    (Update none offlineRequest {} 5 5).record.totalAuditCount = 1 := by
  refine ⟨?_, ?_, ?_⟩
  · simp [auditOutcomeSwitch, offlineRequest, zeroReputation]
  · simp [auditOutcomeSwitch, offlineRequest, zeroReputation]
  · rw [Update_none_eq,
      Update_record_totalAuditCount zeroReputation offlineRequest {} 5 5 rfl,
      auditOutcomeSwitch_totalCount]
    rfl

/-- Claim C10: `UnsuspendNodeUnknownAudit` on a node with no reputation
record succeeds (it never returns NotFound): it lazily creates the
zero-value record with an empty audit history and leaves
`unknownAuditSuspended` null. -/
theorem unsuspend_missing_record_succeeds :
    UnsuspendNodeUnknownAudit none = .ok zeroReputation ∧
    zeroReputation.auditHistory = [] ∧
    zeroReputation.unknownAuditSuspended = none :=
  ⟨rfl, rfl, rfl⟩

/-- Claim C5: on a not-yet-disqualified record where the step-1
unknown-audit score is at or below the threshold, the outcome is not
Success, the node entered the update already unknown-suspended,
`now − unknownAuditSuspended(before)` exceeds the grace period, and
suspension-triggered disqualification is enabled, `Update` sets
`disqualified = now` and clears `unknownAuditSuspended`.  (The grace
check in the source reads the wall clock via `time.Since`; the call is
modelled at `wallNow = now`.) -/
theorem update_suspension_grace_disqualifies (rec : Reputation) (req : UpdateRequest)
    (resp : UpdateAuditHistoryResponse) (now t : ℚ)
    (hdq : rec.disqualified = none)
    (hsus : rec.unknownAuditSuspended = some t)
    (hscore : (auditOutcomeSwitch rec req).unknownAuditAlpha /
        ((auditOutcomeSwitch rec req).unknownAuditAlpha
          + (auditOutcomeSwitch rec req).unknownAuditBeta) ≤ req.auditDQ)
    (hout : req.auditOutcome ≠ .success)
    (hgrace : now - t > req.suspensionGracePeriod)
    (hen : req.suspensionDQEnabled = true) :
    (Update (some rec) req resp now now).record.disqualified = some now ∧
    (Update (some rec) req resp now now).record.unknownAuditSuspended = none := by
  cases hur : rec.underReview <;>
  simp [Update, populateUpdateFields, populateUpdateNodeStats, applyUpdateFields,
    hdq, hsus, hur, hout, hscore, hgrace, hen,
    apply_ite (ReputationUpdateFields.disqualified),
    apply_ite (ReputationUpdateFields.unknownAuditSuspended),
    apply_ite (updateNodeStats.disqualified),
    apply_ite (updateNodeStats.unknownAuditSuspended),
    apply_ite (timeField.set), apply_ite (timeField.isNil), apply_ite (timeField.value)]

/-- Witness for C5: Scenario C — unknown score `1/11 ≤ 0.6`, suspended at
`now − 100`, grace period 48, disqualification enabled, outcome Failure:
the record ends disqualified at `now` with the suspension cleared. -/
theorem update_suspension_grace_disqualifies_witness :
    scenarioCRecord.disqualified = none ∧
    scenarioCRecord.unknownAuditSuspended = some (-100) ∧
    scenarioCRequest.auditOutcome ≠ .success ∧
    (0 : ℚ) - (-100) > scenarioCRequest.suspensionGracePeriod ∧
    ((Update (some scenarioCRecord) scenarioCRequest {} 0 0).record.disqualified = some 0 ∧
      (Update (some scenarioCRecord) scenarioCRequest {} 0 0).record.unknownAuditSuspended = none) :=
  ⟨by decide, by decide, by decide, by norm_num [scenarioCRequest],
   update_suspension_grace_disqualifies scenarioCRecord scenarioCRequest {} 0 (-100)
     (by decide) (by decide)
     (by norm_num [auditOutcomeSwitch, updateReputation, scenarioCRecord, scenarioCRequest])
     (by decide) (by norm_num [scenarioCRequest]) (by decide)⟩

/-- Claim C9 (amended): with offline suspension enabled, on a
not-yet-disqualified record under review whose full review window has
elapsed, if the node is still penalized but offline disqualification is
disabled — and neither the audit-score criterion nor the unknown-audit
grace-period criterion (`suspensionDQCriterion`) fires in the same
call — then the record is not disqualified and both `underReview` and
`offlineSuspended` remain set.  (As stated the claim fails: another
criterion can disqualify in the same call.) -/
theorem update_offline_review_no_dq (rec : Reputation) (req : UpdateRequest)
    (resp : UpdateAuditHistoryResponse) (now wallNow u : ℚ)
    (hdq : rec.disqualified = none)
    (hur : rec.underReview = some u)
    (hen : req.auditHistory.offlineSuspensionEnabled = true)
    (hpen : resp.newScore < req.auditHistory.offlineThreshold)
    (hfull : resp.trackingPeriodFull = true)
    (hpassed : now > u + req.auditHistory.gracePeriod + req.auditHistory.trackingPeriod)
    (hnodq : req.auditHistory.offlineDQEnabled = false)
    (hscoreA : ¬((auditOutcomeSwitch rec req).auditAlpha /
        ((auditOutcomeSwitch rec req).auditAlpha
          + (auditOutcomeSwitch rec req).auditBeta) ≤ req.auditDQ))
    (hB : ¬suspensionDQCriterion rec req wallNow) :
    (Update (some rec) req resp now wallNow).record.disqualified = none ∧
    (Update (some rec) req resp now wallNow).record.underReview = some u ∧
    ((Update (some rec) req resp now wallNow).record.offlineSuspended).isSome = true := by
  by_cases hsc : (auditOutcomeSwitch rec req).unknownAuditAlpha /
      ((auditOutcomeSwitch rec req).unknownAuditAlpha
        + (auditOutcomeSwitch rec req).unknownAuditBeta) ≤ req.auditDQ
  · cases hsus : rec.unknownAuditSuspended with
    | none =>
        cases hos : rec.offlineSuspended <;>
        simp [Update, populateUpdateFields, populateUpdateNodeStats, applyUpdateFields,
          hdq, hsus, hur, hos, hen, hpen, hfull, hpassed, hnodq, hscoreA, hsc,
          apply_ite (ReputationUpdateFields.disqualified),
          apply_ite (ReputationUpdateFields.underReview),
          apply_ite (ReputationUpdateFields.offlineSuspended),
          apply_ite (updateNodeStats.disqualified),
          apply_ite (updateNodeStats.offlineUnderReview),
          apply_ite (updateNodeStats.offlineSuspended),
          apply_ite (updateNodeStats.unknownAuditSuspended),
          apply_ite (timeField.set), apply_ite (timeField.isNil), apply_ite (timeField.value)]
    | some t =>
        by_cases hout : req.auditOutcome = .success
        · cases hos : rec.offlineSuspended <;>
          simp [Update, populateUpdateFields, populateUpdateNodeStats, applyUpdateFields,
            hdq, hsus, hur, hos, hen, hpen, hfull, hpassed, hnodq, hscoreA, hsc, hout,
            apply_ite (ReputationUpdateFields.disqualified),
            apply_ite (ReputationUpdateFields.underReview),
            apply_ite (ReputationUpdateFields.offlineSuspended),
            apply_ite (updateNodeStats.disqualified),
            apply_ite (updateNodeStats.offlineUnderReview),
            apply_ite (updateNodeStats.offlineSuspended),
            apply_ite (updateNodeStats.unknownAuditSuspended),
            apply_ite (timeField.set), apply_ite (timeField.isNil), apply_ite (timeField.value)]
        · by_cases hgr : req.suspensionGracePeriod < wallNow - t
          · by_cases hdqe : req.suspensionDQEnabled = true
            · exact absurd ⟨hsc, hout, hdqe, t, hsus, hgr⟩ hB
            · cases hos : rec.offlineSuspended <;>
              simp [Update, populateUpdateFields, populateUpdateNodeStats, applyUpdateFields,
                hdq, hsus, hur, hos, hen, hpen, hfull, hpassed, hnodq, hscoreA, hsc, hout,
                hgr, hdqe,
                apply_ite (ReputationUpdateFields.disqualified),
                apply_ite (ReputationUpdateFields.underReview),
                apply_ite (ReputationUpdateFields.offlineSuspended),
                apply_ite (updateNodeStats.disqualified),
                apply_ite (updateNodeStats.offlineUnderReview),
                apply_ite (updateNodeStats.offlineSuspended),
                apply_ite (updateNodeStats.unknownAuditSuspended),
                apply_ite (timeField.set), apply_ite (timeField.isNil), apply_ite (timeField.value)]
          · cases hos : rec.offlineSuspended <;>
            simp [Update, populateUpdateFields, populateUpdateNodeStats, applyUpdateFields,
              hdq, hsus, hur, hos, hen, hpen, hfull, hpassed, hnodq, hscoreA, hsc, hout, hgr,
              apply_ite (ReputationUpdateFields.disqualified),
              apply_ite (ReputationUpdateFields.underReview),
              apply_ite (ReputationUpdateFields.offlineSuspended),
              apply_ite (updateNodeStats.disqualified),
              apply_ite (updateNodeStats.offlineUnderReview),
              apply_ite (updateNodeStats.offlineSuspended),
              apply_ite (updateNodeStats.unknownAuditSuspended),
              apply_ite (timeField.set), apply_ite (timeField.isNil), apply_ite (timeField.value)]
  · cases hsus : rec.unknownAuditSuspended <;> cases hos : rec.offlineSuspended <;>
    simp [Update, populateUpdateFields, populateUpdateNodeStats, applyUpdateFields,
      hdq, hsus, hur, hos, hen, hpen, hfull, hpassed, hnodq, hscoreA, hsc,
      apply_ite (ReputationUpdateFields.disqualified),
      apply_ite (ReputationUpdateFields.underReview),
      apply_ite (ReputationUpdateFields.offlineSuspended),
      apply_ite (updateNodeStats.disqualified),
      apply_ite (updateNodeStats.offlineUnderReview),
      apply_ite (updateNodeStats.offlineSuspended),
      apply_ite (timeField.set), apply_ite (timeField.isNil), apply_ite (timeField.value)]

/-- Witness for C9 (amended): a healthy-scores record under review since
time 0, window elapsed at `now = 10`, still penalized, offline
disqualification disabled: no disqualification, review window intact. -/
theorem update_offline_review_no_dq_witness :
    underReviewRecord.disqualified = none ∧
    underReviewRecord.underReview = some 0 ∧
    reviewRequest.auditHistory.offlineSuspensionEnabled = true ∧
    penalizingResponse.newScore < reviewRequest.auditHistory.offlineThreshold ∧
    (10 : ℚ) > 0 + reviewRequest.auditHistory.gracePeriod
      + reviewRequest.auditHistory.trackingPeriod ∧
    reviewRequest.auditHistory.offlineDQEnabled = false ∧
    ((Update (some underReviewRecord) reviewRequest penalizingResponse 10 10).record.disqualified
        = none ∧
      (Update (some underReviewRecord) reviewRequest penalizingResponse 10 10).record.underReview
        = some 0 ∧
      ((Update (some underReviewRecord) reviewRequest penalizingResponse 10 10).record.offlineSuspended).isSome
        = true) :=
  ⟨by decide, by decide, by decide, by norm_num [penalizingResponse, reviewRequest],
   by norm_num [reviewRequest], by decide,
   update_offline_review_no_dq underReviewRecord reviewRequest penalizingResponse 10 10 0
     (by decide) (by decide) (by decide)
     (by norm_num [penalizingResponse, reviewRequest]) (by decide)
     (by norm_num [reviewRequest])
     (by decide)
     (by norm_num [auditOutcomeSwitch, updateReputation, underReviewRecord, reviewRequest])
     (fun h =>
       absurd h.1
         (by norm_num [auditOutcomeSwitch, updateReputation, underReviewRecord, reviewRequest]))⟩

/-- Counterexample to C9 as stated: under the claim's hypotheses (under
review, window elapsed, still penalized, offline disqualification
disabled) a failing audit score disqualifies the node through the
audit-score criterion in the same call. -/
theorem update_offline_review_no_dq_counterexample :
    reviewRequest.auditHistory.offlineSuspensionEnabled = true ∧
    reviewRequest.auditHistory.offlineDQEnabled = false ∧
    underReviewBadAuditRecord.disqualified = none ∧
    underReviewBadAuditRecord.underReview = some 0 ∧
    penalizingResponse.newScore < reviewRequest.auditHistory.offlineThreshold ∧
    penalizingResponse.trackingPeriodFull = true ∧
    (10 : ℚ) > 0 + reviewRequest.auditHistory.gracePeriod
      + reviewRequest.auditHistory.trackingPeriod ∧
    (Update (some underReviewBadAuditRecord) reviewRequest penalizingResponse 10 10).record.disqualified
      = some 10 := by
  refine ⟨by decide, by decide, by decide, by decide,
    by norm_num [penalizingResponse, reviewRequest], by decide,
    by norm_num [reviewRequest], ?_⟩
  norm_num [Update, populateUpdateFields, populateUpdateNodeStats, applyUpdateFields,
    auditOutcomeSwitch, updateReputation, underReviewBadAuditRecord, reviewRequest,
    penalizingResponse,
    apply_ite (ReputationUpdateFields.disqualified),
    apply_ite (updateNodeStats.disqualified),
    apply_ite (timeField.set), apply_ite (timeField.isNil), apply_ite (timeField.value)]

end StorjReputation
